import Mathlib

/-!
# tf-safe — verification of the spec's claims against the source

A shallow embedding of the tf-safe snapshot tool (Go) in Lean 4:

* bytes are `List Nat` (each element a byte value `< 256`);
* `crypto/sha256` is implemented in full (FIPS 180-4), so fingerprints are
  the real SHA-256 lowercase-hex digests the Go code produces;
* Go `time.Time` is modelled as seconds since the Unix epoch; the only
  format the system emits or parses is RFC3339 UTC with a `Z` suffix;
* the filesystem and the object store are finite association lists;
* fallible Go functions return `Except String`, mirroring `error` results.

Definitions keep the Go names (`applyRetentionPolicy`, `CreateBackup`,
`isVersionCompatible`, ...) and are transcribed clause by clause from the
source files named next to them.
-/

/-! ## Bytes and hex -/

/-- Bytes are naturals; a well-formed byte list has every element `< 256`. -/
abbrev Bytes := List Nat

/-- Every element is a byte value. -/
def BytesWF (bs : Bytes) : Prop := ∀ b ∈ bs, b < 256

instance : DecidablePred BytesWF := fun bs =>
  inferInstanceAs (Decidable (∀ b ∈ bs, b < 256))

/-- ASCII bytes of a string (the Go `[]byte(s)` conversion for ASCII data). -/
def asciiBytes (s : String) : Bytes := s.data.map Char.toNat

/-- Equality of modelled Go results is decidable. -/
instance {ε α : Type} [DecidableEq ε] [DecidableEq α] : DecidableEq (Except ε α) :=
  fun x y =>
    match x, y with
    | .ok a, .ok b => decidable_of_iff (a = b) (by simp)
    | .ok _, .error _ => isFalse (by simp)
    | .error _, .ok _ => isFalse (by simp)
    | .error a, .error b => decidable_of_iff (a = b) (by simp)

/-- The sixteen lowercase hex digits. -/
def hexDigits : List Char := "0123456789abcdef".data

/-- Two lowercase hex characters for one byte (Go `fmt.Sprintf "%x"`). -/
def byteToHex (b : Nat) : List Char :=
  [hexDigits.getD (b / 16 % 16) '0', hexDigits.getD (b % 16) '0']

/-- Lowercase-hex rendering of a byte list. -/
def bytesToHex (bs : Bytes) : String :=
  String.mk (bs.flatMap byteToHex)

/-! ## SHA-256 (crypto/sha256), FIPS 180-4 -/

/-- Truncate to a 32-bit word. -/
def w32 (n : Nat) : Nat := n % 4294967296

/-- 32-bit addition. -/
def wadd (a b : Nat) : Nat := (a + b) % 4294967296

/-- Right rotation of a 32-bit word. -/
def rotr (n x : Nat) : Nat := w32 ((x >>> n) ||| (x <<< (32 - n)))

/-- Bitwise choice. -/
def shaCh (x y z : Nat) : Nat := (x &&& y) ^^^ ((4294967295 ^^^ x) &&& z)

/-- Bitwise majority. -/
def shaMaj (x y z : Nat) : Nat := (x &&& y) ^^^ (x &&& z) ^^^ (y &&& z)

/-- Big sigma 0. -/
def bsig0 (x : Nat) : Nat := rotr 2 x ^^^ rotr 13 x ^^^ rotr 22 x

/-- Big sigma 1. -/
def bsig1 (x : Nat) : Nat := rotr 6 x ^^^ rotr 11 x ^^^ rotr 25 x

/-- Small sigma 0. -/
def ssig0 (x : Nat) : Nat := rotr 7 x ^^^ rotr 18 x ^^^ (x >>> 3)

/-- Small sigma 1. -/
def ssig1 (x : Nat) : Nat := rotr 17 x ^^^ rotr 19 x ^^^ (x >>> 10)

/-- The 64 SHA-256 round constants of FIPS 180-4 (decimal). -/
def shaK : List Nat :=
  [1116352408, 1899447441, 3049323471, 3921009573, 961987163,
   1508970993, 2453635748, 2870763221, 3624381080, 310598401,
   607225278, 1426881987, 1925078388, 2162078206, 2614888103,
   3248222580, 3835390401, 4022224774, 264347078, 604807628,
   770255983, 1249150122, 1555081692, 1996064986, 2554220882,
   2821834349, 2952996808, 3210313671, 3336571891, 3584528711,
   113926993, 338241895, 666307205, 773529912, 1294757372,
   1396182291, 1695183700, 1986661051, 2177026350, 2456956037,
   2730485921, 2820302411, 3259730800, 3345764771, 3516065817,
   3600352804, 4094571909, 275423344, 430227734, 506948616,
   659060556, 883997877, 958139571, 1322822218, 1537002063,
   1747873779, 1955562222, 2024104815, 2227730452, 2361852424,
   2428436474, 2756734187, 3204031479, 3329325298]

/-- The SHA-256 initial hash value of FIPS 180-4 (decimal). -/
def shaH0 : List Nat :=
  [1779033703, 3144134277, 1013904242, 2773480762,
   1359893119, 2600822924, 528734635, 1541459225]

/-- Pad a message: append `0x80`, zeros to 56 mod 64, then the bit length
big-endian in 8 bytes. -/
def shaPad (msg : Bytes) : Bytes :=
  let l := msg.length
  let z := (64 - (l + 9) % 64) % 64
  let bits := l * 8
  msg ++ [0x80] ++ List.replicate z 0 ++
    [bits >>> 56 % 256, bits >>> 48 % 256, bits >>> 40 % 256, bits >>> 32 % 256,
     bits >>> 24 % 256, bits >>> 16 % 256, bits >>> 8 % 256, bits % 256]

/-- Group bytes into big-endian 32-bit words. -/
def bytesToWords : Bytes → List Nat
  | a :: b :: c :: d :: rest => (a <<< 24 ||| b <<< 16 ||| c <<< 8 ||| d) :: bytesToWords rest
  | _ => []

/-- Split a word list into 16-word blocks. -/
def toBlocks : List Nat → List (List Nat)
  | a1 :: a2 :: a3 :: a4 :: a5 :: a6 :: a7 :: a8 ::
    a9 :: a10 :: a11 :: a12 :: a13 :: a14 :: a15 :: a16 :: rest =>
      [a1, a2, a3, a4, a5, a6, a7, a8, a9, a10, a11, a12, a13, a14, a15, a16] ::
        toBlocks rest
  | _ => []

/-- Extend a 16-word block to the 64-word message schedule; `w` is held in
reverse order while extending. -/
def shaExtend : Nat → List Nat → List Nat
  | 0, w => w.reverse
  | n + 1, w =>
    let t2 := w.getD 1 0
    let t7 := w.getD 6 0
    let t15 := w.getD 14 0
    let t16 := w.getD 15 0
    shaExtend n (wadd (wadd (ssig1 t2) t7) (wadd (ssig0 t15) t16) :: w)

/-- The 64-word schedule of one block. -/
def shaSchedule (block : List Nat) : List Nat :=
  shaExtend 48 block.reverse

/-- One compression round: state is `[a,b,c,d,e,f,g,h]`. -/
def shaRound (st : List Nat) (kw : Nat × Nat) : List Nat :=
  match st with
  | [a, b, c, d, e, f, g, h] =>
    let t1 := wadd (wadd h (bsig1 e)) (wadd (shaCh e f g) (wadd kw.1 kw.2))
    let t2 := wadd (bsig0 a) (shaMaj a b c)
    [wadd t1 t2, a, b, c, wadd d t1, e, f, g]
  | st => st

/-- Compress one block into the running hash. -/
def shaCompress (h : List Nat) (block : List Nat) : List Nat :=
  let st := (shaK.zip (shaSchedule block)).foldl shaRound h
  (h.zip st).map fun p => wadd p.1 p.2

/-- The SHA-256 digest of a byte list, as 32 bytes. -/
def sha256 (msg : Bytes) : Bytes :=
  let hs := (toBlocks (bytesToWords (shaPad msg))).foldl shaCompress shaH0
  hs.flatMap fun wrd => [wrd >>> 24 % 256, wrd >>> 16 % 256, wrd >>> 8 % 256, wrd % 256]

/-- `utils.CalculateChecksumBytes` (src/internal/utils/filesystem.go): the
SHA-256 of the data, rendered as lowercase hex. -/
def CalculateChecksumBytes (data : Bytes) : String :=
  bytesToHex (sha256 data)

/-! ## Data model (src/pkg/types) -/

/-- `types.BackupMetadata`. Timestamps are seconds since the Unix epoch
(Go `time.Time`, always handled in UTC by this program). -/
structure BackupMetadata where
  id : String
  timestamp : Int
  size : Int
  checksum : String
  storageType : String
  encrypted : Bool
  filePath : String
deriving DecidableEq, Repr, Inhabited

/-- `types.RetentionConfig`. -/
structure RetentionConfig where
  localCount : Int
  remoteCount : Int
  maxAgeDays : Int
deriving DecidableEq, Repr

/-- `types.BackupOptions`. -/
structure BackupOptions where
  stateFilePath : String
  description : String
  force : Bool
deriving DecidableEq, Repr

/-- `types.RestoreOptions`. -/
structure RestoreOptions where
  backupID : String
  targetPath : String
  createBackup : Bool
  force : Bool
deriving DecidableEq, Repr

/-! ## Retention engine (src/internal/backup/retention.go) -/

/-- `backup.MinimumRetentionCount`. -/
def MinimumRetentionCount : Int := 3

/-- Seconds in a day (`24 * time.Hour`, in the seconds model). -/
def secondsPerDay : Int := 86400

/-- `sort.Slice(sortedBackups, Timestamp.After)`: newest first. The Go sort
is unsorted-stability-agnostic; on distinct timestamps (all inputs used
here) every descending sort agrees, and the floor theorems below use only
the length, which any sort preserves. -/
def sortNewestFirst (bs : List BackupMetadata) : List BackupMetadata :=
  bs.insertionSort (fun a b => b.timestamp ≤ a.timestamp)

/-- `RetentionManagerImpl.shouldDeleteByAge`: age-based retention is
disabled for `MaxAgeDays ≤ 0`; otherwise delete when the age exceeds
`MaxAgeDays` days. -/
def shouldDeleteByAge (cfg : RetentionConfig) (b : BackupMetadata) (now : Int) : Bool :=
  if cfg.maxAgeDays ≤ 0 then false
  else decide (now - b.timestamp > cfg.maxAgeDays * secondsPerDay)

/-- One iteration of the count-based deletion loop: append the backup only
while the projected survivor count stays above the minimum. -/
def countStep (len : Nat) (acc : List BackupMetadata) (b : BackupMetadata) :
    List BackupMetadata :=
  if MinimumRetentionCount < (len : Int) - acc.length then acc ++ [b] else acc

/-- One iteration of the age-based deletion loop: delete by age unless the
backup is already marked or the survivor floor would be crossed. -/
def ageStep (cfg : RetentionConfig) (now : Int) (len : Nat)
    (acc : List BackupMetadata) (b : BackupMetadata) : List BackupMetadata :=
  if shouldDeleteByAge cfg b now = true ∧ acc.all (fun m => m.id != b.id) = true ∧
      MinimumRetentionCount < (len : Int) - acc.length then
    acc ++ [b]
  else acc

/-- The count-based retention pass (retention.go lines 69-81). -/
def retentionCountPass (len : Nat) (retentionCount : Int)
    (sorted : List BackupMetadata) : List BackupMetadata :=
  if MinimumRetentionCount < retentionCount ∧ retentionCount < (len : Int) then
    (sorted.drop retentionCount.toNat).foldl (countStep len) []
  else []

/-- The age-based retention pass (retention.go lines 83-107). -/
def retentionAgePass (cfg : RetentionConfig) (now : Int) (len : Nat)
    (sorted : List BackupMetadata) (acc : List BackupMetadata) : List BackupMetadata :=
  if 0 < cfg.maxAgeDays then sorted.foldl (ageStep cfg now len) acc else acc

/-- The final floor adjustment (retention.go lines 109-125): if the
deletion set would cross the floor, re-sort it oldest first and unmark
entries from the front. -/
def retentionAdjust (len : Nat) (toDelete : List BackupMetadata) : List BackupMetadata :=
  if (len : Int) - toDelete.length < MinimumRetentionCount then
    let sortedDel := toDelete.insertionSort (fun a b => a.timestamp ≤ b.timestamp)
    let keepCount : Int := MinimumRetentionCount - ((len : Int) - sortedDel.length)
    if 0 < keepCount ∧ keepCount < (sortedDel.length : Int) then
      sortedDel.drop keepCount.toNat
    else if (sortedDel.length : Int) ≤ keepCount then []
    else sortedDel
  else toDelete

/-- `RetentionManagerImpl.applyRetentionPolicy`: returns the deletion set
for one tier. `retentionCount` is the per-tier target
(`config.LocalCount` or `config.RemoteCount`); `now` is `time.Now()`. -/
def applyRetentionPolicy (cfg : RetentionConfig) (backups : List BackupMetadata)
    (retentionCount : Int) (now : Int) : List BackupMetadata :=
  if backups.length ≤ 3 then []
  else
    let sorted := sortNewestFirst backups
    retentionAdjust sorted.length
      (retentionAgePass cfg now sorted.length sorted
        (retentionCountPass sorted.length retentionCount sorted))

/-- `ApplyLocalRetentionPolicy`. -/
def ApplyLocalRetentionPolicy (cfg : RetentionConfig) (backups : List BackupMetadata)
    (now : Int) : List BackupMetadata :=
  applyRetentionPolicy cfg backups cfg.localCount now

/-- `ApplyRemoteRetentionPolicy`. -/
def ApplyRemoteRetentionPolicy (cfg : RetentionConfig) (backups : List BackupMetadata)
    (now : Int) : List BackupMetadata :=
  applyRetentionPolicy cfg backups cfg.remoteCount now

/-- The survivors of a retention pass, in the engine's newest-first order:
the sorted tier listing minus the deletion set (matched by ID, as the
engine's delete loop does). -/
def retentionSurvivors (cfg : RetentionConfig) (backups : List BackupMetadata)
    (retentionCount : Int) (now : Int) : List BackupMetadata :=
  let del := applyRetentionPolicy cfg backups retentionCount now
  (sortNewestFirst backups).filter (fun b => del.all (fun d => d.id != b.id))

/-! ## String helpers (Go `strings` package semantics, on char lists so that
everything reduces in the kernel) -/

/-- Is the first list a prefix of the second (`strings.HasPrefix`)? -/
def listIsPfx : List Char → List Char → Bool
  | [], _ => true
  | c :: cr, d :: dr => c == d && listIsPfx cr dr
  | _, [] => false

/-- `strings.HasPrefix` on strings. -/
def strStartsWith (s p : String) : Bool := listIsPfx p.data s.data

/-- `strings.HasSuffix` on strings. -/
def strEndsWith (s p : String) : Bool := listIsPfx p.data.reverse s.data.reverse

/-- Drop the first `n` characters of a string. -/
def strDropChars (s : String) (n : Nat) : String := String.mk (s.data.drop n)

/-- Go string `<`: lexicographic byte order (ASCII here, so char order). -/
def charListLt : List Char → List Char → Bool
  | [], [] => false
  | [], _ :: _ => true
  | _ :: _, [] => false
  | a :: as, b :: bs =>
    if a.toNat < b.toNat then true
    else if b.toNat < a.toNat then false
    else charListLt as bs

/-- Go `a < b` on strings. -/
def goStrLt (a b : String) : Bool := charListLt a.data b.data

/-- `strings.Split(s, ".")`, accumulator form. -/
def splitOnDotAux (cur : List Char) : List Char → List (List Char)
  | [] => [cur.reverse]
  | c :: cs => if c == '.' then cur.reverse :: splitOnDotAux [] cs else splitOnDotAux (c :: cur) cs

/-- `strings.Split(s, ".")`. -/
def splitOnDot (s : String) : List String := (splitOnDotAux [] s.data).map String.mk

/-! ## Time: RFC3339 UTC with `Z` suffix

Go `time.Time` in the seconds-since-epoch model. The only layout this
program emits is `2006-01-02T15:04:05Z` (backup/engine.go
`BackupIDTimeFormat`), and the only parse the S3 metadata path needs is the
same form, so the parser below accepts exactly that shape. -/

/-- Gregorian leap year. -/
def isLeapYear (y : Nat) : Bool := (y % 4 == 0 && y % 100 != 0) || y % 400 == 0

/-- Days in a year. -/
def daysInYear (y : Nat) : Nat := if isLeapYear y then 366 else 365

/-- Month lengths of a year. -/
def monthLengths (y : Nat) : List Nat :=
  [31, if isLeapYear y then 29 else 28, 31, 30, 31, 30, 31, 31, 30, 31, 30, 31]

/-- Walk years forward from 1970 consuming whole years of days; fuel keeps
the recursion structural. -/
def findYear : Nat → Nat → Nat → Nat × Nat
  | 0, y, d => (y, d)
  | fuel + 1, y, d => if d < daysInYear y then (y, d) else findYear fuel (y + 1) (d - daysInYear y)

/-- Walk months consuming whole months of days. -/
def findMonth : List Nat → Nat → Nat → Nat × Nat
  | [], m, d => (m, d)
  | ml :: rest, m, d => if d < ml then (m, d) else findMonth rest (m + 1) (d - ml)

/-- Zero-pad to two digits. -/
def pad2 (n : Nat) : String := if n < 10 then "0" ++ toString n else toString n

/-- Zero-pad to four digits. -/
def pad4 (n : Nat) : String :=
  if n < 10 then "000" ++ toString n
  else if n < 100 then "00" ++ toString n
  else if n < 1000 then "0" ++ toString n
  else toString n

/-- Format seconds since the epoch as `YYYY-MM-DDTHH:MM:SSZ` (the Go layout
`2006-01-02T15:04:05Z` applied to a UTC time). -/
def formatRFC3339 (secs : Nat) : String :=
  let days := secs / 86400
  let rem := secs % 86400
  let yd := findYear (days + 1) 1970 days
  let md := findMonth (monthLengths yd.1) 1 yd.2
  pad4 yd.1 ++ "-" ++ pad2 md.1 ++ "-" ++ pad2 (md.2 + 1) ++ "T" ++
    pad2 (rem / 3600) ++ ":" ++ pad2 (rem % 3600 / 60) ++ ":" ++ pad2 (rem % 60) ++ "Z"

/-- One ASCII digit. -/
def digitVal (c : Char) : Option Nat :=
  if '0' ≤ c ∧ c ≤ '9' then some (c.toNat - 48) else none

/-- Days since 1970-01-01 of a civil date (year ≥ 1970). -/
def daysSinceEpoch (y m d : Nat) : Nat :=
  ((List.range (y - 1970)).map (fun i => daysInYear (1970 + i))).sum +
    ((monthLengths y).take (m - 1)).sum + (d - 1)

/-- Parse `YYYY-MM-DDTHH:MM:SSZ` into seconds since the epoch; `none` on any
other shape (models `time.Parse(time.RFC3339, ·)` on the strings this
program writes). -/
def parseRFC3339 (s : String) : Option Nat :=
  match s.data with
  | [y1, y2, y3, y4, '-', m1, m2, '-', d1, d2, 'T', h1, h2, ':', n1, n2, ':', s1, s2, 'Z'] =>
    match digitVal y1, digitVal y2, digitVal y3, digitVal y4, digitVal m1, digitVal m2,
        digitVal d1, digitVal d2, digitVal h1, digitVal h2, digitVal n1, digitVal n2,
        digitVal s1, digitVal s2 with
    | some a1, some a2, some a3, some a4, some b1, some b2, some c1, some c2,
      some e1, some e2, some f1, some f2, some g1, some g2 =>
      let y := a1 * 1000 + a2 * 100 + a3 * 10 + a4
      let mo := b1 * 10 + b2
      let d := c1 * 10 + c2
      let h := e1 * 10 + e2
      let mi := f1 * 10 + f2
      let ss := g1 * 10 + g2
      if 1970 ≤ y ∧ 1 ≤ mo ∧ mo ≤ 12 ∧ 1 ≤ d ∧
          d ≤ (monthLengths y).getD (mo - 1) 31 ∧ h < 24 ∧ mi < 60 ∧ ss < 60 then
        some (daysSinceEpoch y mo d * 86400 + h * 3600 + mi * 60 + ss)
      else none
    | _, _, _, _, _, _, _, _, _, _, _, _, _, _ => none
  | _ => none

/-! ## Filesystem model (src/internal/utils/filesystem.go)

The filesystem is a finite map from absolute path to content. `AtomicWrite`
is a map update (its commit point); `FileExists` is membership. -/

/-- A filesystem: absolute path to content. -/
abbrev FS := List (String × Bytes)

/-- Association-list lookup. -/
def alookup {α : Type} (l : List (String × α)) (k : String) : Option α :=
  (l.find? (fun e => e.1 == k)).map (·.2)

/-- Association-list overwrite. -/
def ainsert {α : Type} (l : List (String × α)) (k : String) (v : α) : List (String × α) :=
  (k, v) :: l.filter (fun e => e.1 != k)

/-- Association-list removal. -/
def aremove {α : Type} (l : List (String × α)) (k : String) : List (String × α) :=
  l.filter (fun e => e.1 != k)

/-- `utils.FileExists`. -/
def FileExists (p : String) (fs : FS) : Bool := (alookup fs p).isSome

/-- `utils.AtomicWrite` (the committed rename). -/
def fsWrite (fs : FS) (p : String) (data : Bytes) : FS := ainsert fs p data

/-- The names directly under `cwd`, sorted by name (`os.ReadDir` returns a
sorted listing). -/
def dirEntries (cwd : String) (fs : FS) : List String :=
  ((fs.map (·.1)).filterMap (fun p =>
      if strStartsWith p (cwd ++ "/") then
        let rest := strDropChars p (cwd.length + 1)
        if rest ≠ "" ∧ rest.data.all (fun c => c ≠ '/') then some rest else none
      else none)).insertionSort (fun a b => goStrLt b a = false)

/-! ## Local storage backend (src/internal/storage/s3.go, `LocalStorage`) -/

/-- The local tier: payload files (`<id>.bak`), metadata files
(`<id>.meta`) and the `index.json` catalog, each a finite map keyed by
backup ID. -/
structure LocalState where
  payloads : List (String × Bytes)
  metas : List (String × BackupMetadata)
  catalog : List (String × BackupMetadata)
deriving DecidableEq, Repr

/-- `LocalStorage.Store`: fill the checksum if empty, set path, size and
tier tag, write payload and metadata, update the catalog. The model's
atomic writes always succeed, so the metadata-failure cleanup branch of the
source has no counterpart here. Returns the updated state and the metadata
the Go code mutates in place. -/
def LocalStorage.Store (st : LocalState) (dir key : String) (data : Bytes)
    (m : BackupMetadata) : LocalState × BackupMetadata :=
  let backupPath := dir ++ "/" ++ key ++ ".bak"
  let m1 := if m.checksum = "" then { m with checksum := CalculateChecksumBytes data } else m
  let m2 := { m1 with filePath := backupPath, size := (data.length : Int), storageType := "local" }
  ({ payloads := ainsert st.payloads key data,
     metas := ainsert st.metas key m2,
     catalog := ainsert st.catalog key m2 }, m2)

/-- `LocalStorage.Retrieve`: payload must exist, metadata must read, and
the recomputed checksum must equal the recorded one. -/
def LocalStorage.Retrieve (st : LocalState) (key : String) :
    Except String (Bytes × BackupMetadata) :=
  match alookup st.payloads key with
  | none => .error ("backup file not found: " ++ key)
  | some data =>
    match alookup st.metas key with
    | none => .error ("failed to read metadata for " ++ key)
    | some m =>
      if CalculateChecksumBytes data ≠ m.checksum then
        .error ("checksum mismatch for backup " ++ key ++ ": expected " ++ m.checksum ++
          ", got " ++ CalculateChecksumBytes data)
      else .ok (data, m)

/-- `LocalStorage.Exists`: presence of the payload file. -/
def LocalStorage.Exists (st : LocalState) (key : String) : Bool :=
  (alookup st.payloads key).isSome

/-- `LocalStorage.Delete`: remove payload, metadata and catalog entry. -/
def LocalStorage.Delete (st : LocalState) (key : String) : LocalState :=
  { payloads := aremove st.payloads key,
    metas := aremove st.metas key,
    catalog := aremove st.catalog key }

/-! ## Remote (S3) storage backend (src/internal/storage/s3.go, `S3Storage`) -/

/-- An S3 object: body plus the string-keyed metadata side channel. -/
structure S3Object where
  body : Bytes
  meta : List (String × String)
deriving DecidableEq, Repr

/-- The object store: S3 key to object. -/
abbrev S3State := List (String × S3Object)

/-- `S3Storage.buildS3Key`: `<configured-prefix><id>.bak`. -/
def buildS3Key (pfx key : String) : String := pfx ++ key ++ ".bak"

/-- `S3Storage.parseS3Metadata`: ID from the key; timestamp parsed from the
side channel when present (parse failure is an error), else `now`;
checksum and encrypted flag from the side channel with Go zero defaults. -/
def parseS3Metadata (md : List (String × String)) (key : String) (now : Int) :
    Except String BackupMetadata :=
  match alookup md "tf-safe-timestamp" with
  | some s =>
    match parseRFC3339 s with
    | none => .error "invalid timestamp format"
    | some t =>
      .ok { id := key, timestamp := (t : Int), size := 0,
            checksum := (alookup md "tf-safe-checksum").getD "",
            storageType := "",
            encrypted := (alookup md "tf-safe-encrypted").getD "" == "true",
            filePath := "" }
  | none =>
    .ok { id := key, timestamp := now, size := 0,
          checksum := (alookup md "tf-safe-checksum").getD "",
          storageType := "",
          encrypted := (alookup md "tf-safe-encrypted").getD "" == "true",
          filePath := "" }

/-- `S3Storage.Retrieve`: `GetObject` (the deterministic store collapses the
three retry attempts to one lookup), parse the side-channel metadata, and
require the recomputed checksum to equal the recorded one. -/
def S3Storage.Retrieve (objs : S3State) (pfx key : String) (now : Int) :
    Except String (Bytes × BackupMetadata) :=
  match alookup objs (buildS3Key pfx key) with
  | none => .error "failed to retrieve object from S3 after 3 attempts"
  | some obj =>
    match parseS3Metadata obj.meta key now with
    | .error e => .error ("failed to parse S3 metadata: " ++ e)
    | .ok md =>
      if CalculateChecksumBytes obj.body ≠ md.checksum then
        .error ("checksum mismatch for backup " ++ key ++ ": expected " ++ md.checksum ++
          ", got " ++ CalculateChecksumBytes obj.body)
      else .ok (obj.body, md)

/-- `S3Storage.Store` on the model store (the regular-upload path): write
the object with its side-channel metadata. -/
def S3Storage.Store (objs : S3State) (pfx key : String) (data : Bytes)
    (m : BackupMetadata) : S3State × BackupMetadata :=
  let m1 := if m.checksum = "" then { m with checksum := CalculateChecksumBytes data } else m
  let s3Key := buildS3Key pfx key
  let m2 := { m1 with size := (data.length : Int), storageType := "s3",
                      filePath := "s3://bucket/" ++ s3Key }
  (ainsert objs s3Key
    { body := data,
      meta := [("tf-safe-id", m2.id), ("tf-safe-timestamp", formatRFC3339 m2.timestamp.toNat),
               ("tf-safe-checksum", m2.checksum),
               ("tf-safe-encrypted", if m2.encrypted then "true" else "false")] }, m2)

/-! ## Snapshot engine (src/internal/backup/engine.go) -/

/-- `Engine.generateBackupID`: `terraform.tfstate.` plus the creation
instant in the `2006-01-02T15:04:05Z` layout. -/
def generateBackupID (now : Nat) : String :=
  "terraform.tfstate." ++ formatRFC3339 now

/-- `Engine.detectStateFile`: prefer `<cwd>/terraform.tfstate`; otherwise
scan the directory for `.tfstate` names — none is an error, one is chosen,
and among several the default name wins, else the first (with a warning,
never an error). -/
def detectStateFile (cwd : String) (fs : FS) : Except String String :=
  let stateFilePath := cwd ++ "/terraform.tfstate"
  if FileExists stateFilePath fs then .ok stateFilePath
  else
    let stateFiles := (dirEntries cwd fs).filter (fun n => strEndsWith n ".tfstate")
    match stateFiles with
    | [] => .error "no Terraform state files found in current directory"
    | f :: rest =>
      if rest = [] then .ok (cwd ++ "/" ++ f)
      else if (f :: rest).contains "terraform.tfstate" then .ok (cwd ++ "/terraform.tfstate")
      else .ok (cwd ++ "/" ++ f)

/-- A storage backend as the engine sees it (the Go `storage.StorageBackend`
interface), over backend state `σ`. -/
structure StorageBackend (σ : Type) where
  store : σ → String → Bytes → BackupMetadata → Except String (σ × BackupMetadata)
  getType : String

/-- The remote backend of the dual-tier failure scenario: every `Store`
fails after its three exhausted attempts (the retried transient error of
spec §8 scenario 6). -/
def failingRemote : StorageBackend S3State :=
  { store := fun _ _ _ _ => .error "failed to upload to S3 after 3 attempts",
    getType := "s3" }

/-- A remote backend that succeeds, storing into the model object store
with an empty key prefix. -/
def workingRemote : StorageBackend S3State :=
  { store := fun objs key data m => .ok (S3Storage.Store objs "" key data m),
    getType := "s3" }

/-- `Engine.CreateBackup`: resolve the state file (detect when the option
is empty), fail when it is missing unless `force`, read the bytes (empty
when forced and missing), build the metadata with a fresh ID, the SHA-256
checksum and the local tier tag, store locally (fatal on failure — always
succeeds in the model), then store remotely when enabled — a remote error
is logged and dropped, never surfaced. Returns the locally stored record
with the updated tier states. -/
def CreateBackup {σr : Type} (remoteBackend : Option (StorageBackend σr))
    (remoteEnabled : Bool) (cwd dir : String) (fs : FS) (st : LocalState) (rst : σr)
    (opts : BackupOptions) (now : Nat) :
    Except String (BackupMetadata × LocalState × σr) :=
  let pathE : Except String String :=
    if opts.stateFilePath = "" then
      match detectStateFile cwd fs with
      | .ok p => .ok p
      | .error e => .error ("failed to detect state file: " ++ e)
    else .ok opts.stateFilePath
  match pathE with
  | .error e => .error e
  | .ok stateFilePath =>
    if FileExists stateFilePath fs = false ∧ opts.force = false then
      .error ("state file not found: " ++ stateFilePath)
    else
      let stateData := (alookup fs stateFilePath).getD []
      let backupID := generateBackupID now
      let metadata : BackupMetadata :=
        { id := backupID, timestamp := (now : Int), size := (stateData.length : Int),
          checksum := CalculateChecksumBytes stateData,
          storageType := "local", encrypted := false, filePath := stateFilePath }
      let stored := LocalStorage.Store st dir backupID stateData metadata
      match remoteBackend, remoteEnabled with
      | some rb, true =>
        match rb.store rst backupID stateData stored.2 with
        | .error _ => .ok (stored.2, stored.1, rst)
        | .ok r => .ok (stored.2, stored.1, r.1)
      | _, _ => .ok (stored.2, stored.1, rst)

/-- `Engine.validateBackupFromStorage` against the local tier: retrieve,
then re-check checksum and size against the metadata. -/
def validateBackupFromLocal (st : LocalState) (key : String) : Except String Unit :=
  match LocalStorage.Retrieve st key with
  | .error e => .error ("failed to retrieve backup from local storage: " ++ e)
  | .ok r =>
    if CalculateChecksumBytes r.1 ≠ r.2.checksum then
      .error ("backup " ++ key ++ " is corrupted in local storage: checksum mismatch")
    else if (r.1.length : Int) ≠ r.2.size then
      .error ("backup " ++ key ++ " is corrupted in local storage: size mismatch")
    else .ok ()

/-- `Engine.validateBackupFromStorage` against the remote tier. -/
def validateBackupFromRemote (objs : S3State) (pfx key : String) (now : Int) :
    Except String Unit :=
  match S3Storage.Retrieve objs pfx key now with
  | .error e => .error ("failed to retrieve backup from remote storage: " ++ e)
  | .ok r =>
    if CalculateChecksumBytes r.1 ≠ r.2.checksum then
      .error ("backup " ++ key ++ " is corrupted in remote storage: checksum mismatch")
    else if (r.1.length : Int) ≠ r.2.size then
      .error ("backup " ++ key ++ " is corrupted in remote storage: size mismatch")
    else .ok ()

/-- `Engine.ValidateBackup`: local first; on local failure try remote when
enabled; the surfaced error wraps the local one. -/
def EngineValidateBackup (st : LocalState) (objs : S3State) (pfx : String)
    (remoteEnabled : Bool) (key : String) (now : Int) : Except String Unit :=
  match validateBackupFromLocal st key with
  | .ok _ => .ok ()
  | .error le =>
    if remoteEnabled then
      match validateBackupFromRemote objs pfx key now with
      | .ok _ => .ok ()
      | .error _ => .error ("backup validation failed for " ++ key ++ ": " ++ le)
    else .error ("backup validation failed for " ++ key ++ ": " ++ le)

/-! ## Restore engine (src/internal/restore/engine.go) -/

/-- `restore.Engine.ValidateBackup`: check existence on the LOCAL tier
(`e.localStorage.Exists`), then run the backup engine's validation. -/
def RestoreValidateBackup (st : LocalState) (objs : S3State) (pfx : String)
    (remoteEnabled : Bool) (key : String) (now : Int) : Except String Unit :=
  if LocalStorage.Exists st key = false then .error ("backup not found: " ++ key)
  else
    match EngineValidateBackup st objs pfx remoteEnabled key now with
    | .error e => .error ("backup integrity validation failed: " ++ e)
    | .ok _ => .ok ()

/-- `restore.Engine.CreatePreRestoreBackup`: require the target to exist
and snapshot it through the backup engine (the restore engine's backup
engine; the remote fan-out is irrelevant to the restore claims and is
disabled here). -/
def CreatePreRestoreBackup (cwd dir : String) (fs : FS) (st : LocalState)
    (targetPath : String) (now : Nat) : Except String (BackupMetadata × LocalState) :=
  if FileExists targetPath fs = false then
    .error ("target file does not exist: " ++ targetPath)
  else
    match CreateBackup (none : Option (StorageBackend Unit)) false cwd dir fs st ()
        { stateFilePath := targetPath,
          description := "Pre-restore backup created at " ++ formatRFC3339 now,
          force := false } now with
    | .error e => .error ("failed to create pre-restore backup: " ++ e)
    | .ok r => .ok (r.1, r.2.1)

/-- `restore.Engine.RestoreBackup`: validate, optionally checkpoint the
current target, retrieve from the LOCAL tier, and atomically write the
target. The model's atomic write always succeeds, so the rollback branch
of the source has no counterpart here. -/
def RestoreBackup (cwd dir : String) (fs : FS) (st : LocalState) (objs : S3State)
    (pfx : String) (remoteEnabled : Bool) (opts : RestoreOptions) (now : Nat) :
    Except String (FS × LocalState) :=
  match RestoreValidateBackup st objs pfx remoteEnabled opts.backupID (now : Int) with
  | .error e => .error ("backup validation failed: " ++ e)
  | .ok _ =>
    let preE : Except String LocalState :=
      if opts.createBackup = true ∧ FileExists opts.targetPath fs = true then
        match CreatePreRestoreBackup cwd dir fs st opts.targetPath now with
        | .error e => .error ("failed to create pre-restore backup: " ++ e)
        | .ok r => .ok r.2
      else .ok st
    match preE with
    | .error e => .error e
    | .ok st1 =>
      match LocalStorage.Retrieve st1 opts.backupID with
      | .error e => .error ("failed to retrieve backup data: " ++ e)
      | .ok r => .ok (fsWrite fs opts.targetPath r.1, st1)

/-! ## Wrapper (src/internal/terraform/wrapper.go) -/

/-- The outcome of one hook's `PreExecute` for the command at hand: either
an error or an optional backup record. -/
abbrev HookPre := Except String (Option BackupMetadata)

/-- The pre-execution hook loop of `Wrapper.ExecuteWithBackup` (lines
56-65): run hooks in order, abort on the first error, and each non-nil
returned record OVERWRITES `preBackup`. -/
def runPreHooksAux (acc : Option BackupMetadata) : List HookPre → HookPre
  | [] => .ok acc
  | h :: t =>
    match h with
    | .error e => .error ("pre-execution hook failed: " ++ e)
    | .ok none => runPreHooksAux acc t
    | .ok (some b) => runPreHooksAux (some b) t

/-- The pre-execution hook phase, starting from no pre-record. -/
def runPreHooks (hooks : List HookPre) : HookPre := runPreHooksAux none hooks

/-- The last non-nil record among the hook results (what the loop above
actually remembers): a later one wins over an earlier one. -/
def lastSome : List HookPre → Option BackupMetadata
  | [] => none
  | h :: t =>
    match lastSome t with
    | some b => some b
    | none =>
      match h with
      | .ok (some b) => some b
      | _ => none

/-- `isVersionCompatible` (wrapper.go lines 195-223): split both versions
on `.` after trimming a leading `v`, require three components, and compare
component by component with Go STRING comparison. -/
def isVersionCompatible (version minVersion : String) : Bool :=
  let vp := splitOnDot (if strStartsWith version "v" then strDropChars version 1 else version)
  let mp := splitOnDot (if strStartsWith minVersion "v" then strDropChars minVersion 1 else minVersion)
  if vp.length < 3 || mp.length < 3 then false
  else
    let v0 := vp.getD 0 ""
    let v1 := vp.getD 1 ""
    let v2 := vp.getD 2 ""
    let m0 := mp.getD 0 ""
    let m1 := mp.getD 1 ""
    let m2 := mp.getD 2 ""
    if goStrLt m0 v0 then true
    else if goStrLt v0 m0 then false
    else if goStrLt m1 v1 then true
    else if goStrLt v1 m1 then false
    else !(goStrLt v2 m2)

/-- A decimal numeral, or `none`. -/
def decimalNat? (s : String) : Option Nat :=
  if s.data ≠ [] ∧ s.data.all (fun c => '0' ≤ c ∧ c ≤ '9') then
    some (s.data.foldl (fun acc c => acc * 10 + (c.toNat - 48)) 0)
  else none

/-- Does a dotted version string denote a numeric triple `major.minor.patch`? -/
def versionTriple (s : String) : Option (Nat × Nat × Nat) :=
  match splitOnDot s with
  | [a, b, c] =>
    match decimalNat? a, decimalNat? b, decimalNat? c with
    | some x, some y, some z => some (x, y, z)
    | _, _, _ => none
  | _ => none

/-! ## Encryption providers (src/internal/encryption) -/

/-- Modelled from the spec: the AES-256-GCM AEAD itself lives in Go's
`crypto/cipher`, outside this repository. Per §4.2/§8 it is an
authenticated cipher whose output is `ciphertext_with_tag` and whose
`Open` rejects any tampered single byte. The model keeps the plaintext in
the clear and appends a 16-byte authenticator tag whose value depends on
key, nonce and message bytes, which realizes exactly the properties the
spec assigns to the primitive (round-trip, single-byte tamper detection,
16-byte overhead). -/
def gcmTagByte (key nonce pt : Bytes) : Nat :=
  (key.sum + nonce.sum + pt.sum) % 256

/-- Modelled from the spec: the 16-byte authenticator tag of the AEAD
model, a function of key, nonce and message bytes. -/
def gcmTag (key nonce pt : Bytes) : Bytes :=
  List.replicate 16 (gcmTagByte key nonce pt)

/-- Modelled from the spec: `gcm.Seal` of the AEAD model. -/
def gcmSeal (key nonce pt : Bytes) : Bytes := pt ++ gcmTag key nonce pt

/-- Modelled from the spec: `gcm.Open` of the AEAD model — reject short
inputs and any ciphertext whose tag does not verify. -/
def gcmOpen (key nonce ct : Bytes) : Option Bytes :=
  if ct.length < 16 then none
  else
    let pt := ct.take (ct.length - 16)
    let tag := ct.drop (ct.length - 16)
    if tag = gcmTag key nonce pt then some pt else none

/-- `AESProvider.Encrypt` (aes.go lines 109-124): draw a fresh nonce (a
parameter of the pure model) and return `gcm.Seal(nonce, nonce, data,
nil)`, i.e. `nonce || ciphertext_with_tag`. -/
def AESProvider.Encrypt (key nonce data : Bytes) : Bytes :=
  nonce ++ gcmSeal key nonce data

/-- `AESProvider.Decrypt` (aes.go lines 127-147): reject inputs shorter
than the nonce size (12), split nonce from ciphertext, `gcm.Open`. -/
def AESProvider.Decrypt (key enc : Bytes) : Except String Bytes :=
  if enc.length < 12 then .error "encrypted data too short"
  else
    match gcmOpen key (enc.take 12) (enc.drop 12) with
    | some pt => .ok pt
    | none => .error "failed to decrypt data"

/-- `NoOpProvider.Encrypt` value: the returned copy equals the input. -/
def NoOpProvider.Encrypt (data : Bytes) : Bytes := data

/-- `NoOpProvider.Decrypt` value: the returned copy equals the input. -/
def NoOpProvider.Decrypt (data : Bytes) : Bytes := data

/-- A heap of byte buffers, for the aliasing half of the no-op contract
(Go slices are references; `make` + `copy` allocates a fresh buffer). -/
abbrev Heap := List Bytes

/-- Allocate a fresh buffer holding a copy; returns the new heap and the
fresh reference. -/
def heapAlloc (h : Heap) (bs : Bytes) : Heap × Nat := (h ++ [bs], h.length)

/-- `NoOpProvider.Encrypt` on the heap: `result := make(...); copy(result,
data); return result` — a fresh buffer with equal contents. -/
def NoOpEncryptH (h : Heap) (src : Nat) : Heap × Nat := heapAlloc h (h.getD src [])

/-- Overwrite one byte of the buffer behind reference `r`. -/
def heapSet (h : Heap) (r i v : Nat) : Heap := h.set r ((h.getD r []).set i v)

/-! ## Concrete fixtures for the end-to-end scenarios -/

/-- A tier record with a given number and creation instant. -/
def fixtureBackup (i : Nat) (ts : Int) : BackupMetadata :=
  { id := "backup-" ++ toString i, timestamp := ts, size := 100, checksum := "",
    storageType := "local", encrypted := false, filePath := "" }

/-- The reference instant `t` of the retention scenarios. -/
def c9Now : Int := 1700000000

/-- Six snapshots at hourly offsets `t-6h … t-1h` (oldest first, as the
spec lists them). -/
def c9Backups : List BackupMetadata :=
  [fixtureBackup 1 (c9Now - 6 * 3600), fixtureBackup 2 (c9Now - 5 * 3600),
   fixtureBackup 3 (c9Now - 4 * 3600), fixtureBackup 4 (c9Now - 3 * 3600),
   fixtureBackup 5 (c9Now - 2 * 3600), fixtureBackup 6 (c9Now - 1 * 3600)]

/-- Count target 4, age-based retention disabled. -/
def c9Config : RetentionConfig := { localCount := 4, remoteCount := 10, maxAgeDays := 0 }

/-- Retention config with target 10 and a 1-day age cap. -/
def c1Config : RetentionConfig := { localCount := 10, remoteCount := 10, maxAgeDays := 1 }

/-- Four snapshots, all far older than one day at `c1Now`. -/
def c1Backups : List BackupMetadata :=
  [fixtureBackup 1 0, fixtureBackup 2 3600, fixtureBackup 3 7200, fixtureBackup 4 10800]

/-- An instant much later than every `c1Backups` timestamp. -/
def c1Now : Int := 10000000

/-- The empty local tier. -/
def emptyLocal : LocalState := { payloads := [], metas := [], catalog := [] }

/-- Scenario 1's literal payload,
`{"version":4,"terraform_version":"1.0.0","serial":1}` (52 bytes). -/
def scenarioPayload : Bytes :=
  asciiBytes "\x7b\"version\":4,\"terraform_version\":\"1.0.0\",\"serial\":1\x7d"

/-- Scenario 1's working directory: one state file holding the payload. -/
def c8FS : FS := [("/work/terraform.tfstate", scenarioPayload)]

/-- Scenario 1's options: defaults (no explicit path, empty description,
no force). -/
def c8Opts : BackupOptions := { stateFilePath := "", description := "", force := false }

/-- Scenario 1's creation instant, `2023-06-15T10:30:00Z`. -/
def c8Now : Nat := 1686825000

/-- Scenario 1 run: local tier only, no remote. -/
def c8Run : Except String (BackupMetadata × LocalState × Unit) :=
  CreateBackup (none : Option (StorageBackend Unit)) false "/work" "/work/.tfstate_snapshots"
    c8FS emptyLocal () c8Opts c8Now

/-- The record scenario 1 returns. -/
def c8Meta : BackupMetadata := (c8Run.toOption.map (·.1)).getD default

/-- A backup identifier used by the restore scenario. -/
def c5ID : String := "terraform.tfstate.2023-06-15T10:30:00Z"

/-- The restored snapshot's payload. -/
def c5Payload : Bytes := asciiBytes "\x7b\"version\":4,\"serial\":7\x7d"

/-- A remote tier holding `c5ID` intact (recorded checksum matches the
stored bytes) while the local tier is empty. -/
def c5Remote : S3State :=
  [(buildS3Key "" c5ID,
    { body := c5Payload,
      meta := [("tf-safe-id", c5ID), ("tf-safe-timestamp", "2023-06-15T10:30:00Z"),
               ("tf-safe-checksum", CalculateChecksumBytes c5Payload),
               ("tf-safe-encrypted", "false")] })]

/-- Restore options asking for `c5ID` without a checkpoint. -/
def c5Opts : RestoreOptions :=
  { backupID := c5ID, targetPath := "/work/terraform.tfstate",
    createBackup := false, force := false }

/-- Bytes of the integrity fixtures. -/
def c2Data : Bytes := asciiBytes "test backup data"

/-- Metadata recorded for `c2Data` at write time. -/
def c2Meta : BackupMetadata :=
  { id := "id1", timestamp := 1700000000, size := 16,
    checksum := CalculateChecksumBytes c2Data, storageType := "local",
    encrypted := false, filePath := "" }

/-- A healthy local tier holding `c2Data` under `id1`. -/
def c2GoodState : LocalState :=
  { payloads := [("id1", c2Data)], metas := [("id1", c2Meta)], catalog := [("id1", c2Meta)] }

/-- The same tier after the on-disk payload was mutated post-write (one
appended byte, spec scenario 2). -/
def c2BadState : LocalState :=
  { payloads := [("id1", c2Data ++ [0])], metas := [("id1", c2Meta)],
    catalog := [("id1", c2Meta)] }

/-- Two distinct pre-hook records. -/
def c6r1 : BackupMetadata :=
  { id := "pre-1", timestamp := 1, size := 1, checksum := "a", storageType := "local",
    encrypted := false, filePath := "" }

/-- The second distinct pre-hook record. -/
def c6r2 : BackupMetadata :=
  { id := "pre-2", timestamp := 2, size := 2, checksum := "b", storageType := "local",
    encrypted := false, filePath := "" }

/-- Concrete AES fixtures: a 32-byte key. -/
def c3Key : Bytes := List.replicate 32 7

/-- Concrete AES fixtures: a 12-byte nonce. -/
def c3Nonce : Bytes := [1, 2, 3, 4, 5, 6, 7, 8, 9, 10, 11, 12]

/-- Concrete AES fixtures: a plaintext. -/
def c3Data : Bytes := asciiBytes "state bytes"

/-- A working directory holding `terraform.tfstate` and one other state
file. -/
def c10FSDefault : FS := [("/w/other.tfstate", [2]), ("/w/terraform.tfstate", [1])]

/-- A working directory holding two state files, neither the default
name. -/
def c10FSTwo : FS := [("/w/a.tfstate", [1]), ("/w/b.tfstate", [2])]

/-- Explicit-path options of the dual-tier scenario. -/
def c4Opts : BackupOptions :=
  { stateFilePath := "/work/terraform.tfstate", description := "", force := false }

/-! # Theorems -/

/-! ## Shared helper lemmas -/

/-- Inserting then looking up the same key hits the inserted value. -/
theorem alookup_ainsert {α : Type} (l : List (String × α)) (k : String) (v : α) :
    alookup (ainsert l k v) k = some v := by
  simp [alookup, ainsert, List.find?]

/-- A fold preserves any invariant its step preserves. -/
theorem foldl_preserve {α β : Type} (P : β → Prop) (step : β → α → β)
    (hstep : ∀ acc b, P acc → P (step acc b)) :
    ∀ (l : List α) (acc : β), P acc → P (l.foldl step acc) := by
  intro l
  induction l with
  | nil => exact fun acc h => h
  | cons x xs ih => exact fun acc h => ih (step acc x) (hstep acc x h)

/-- The retention floor invariant: at least three of the tier's `len`
records survive the deletion set. -/
def RetentionInv (len : Nat) (acc : List BackupMetadata) : Prop :=
  3 ≤ (len : Int) - acc.length

/-- Sorting does not change the tier count. -/
theorem sortNewestFirst_length (bs : List BackupMetadata) :
    (sortNewestFirst bs).length = bs.length :=
  (List.perm_insertionSort _ bs).length_eq

/-- The count-policy step keeps the floor invariant. -/
theorem countStep_inv (len : Nat) (acc : List BackupMetadata) (b : BackupMetadata)
    (h : RetentionInv len acc) : RetentionInv len (countStep len acc b) := by
  unfold RetentionInv at *
  unfold countStep
  split
  next hg =>
    simp only [MinimumRetentionCount] at hg
    simp only [List.length_append, List.length_cons, List.length_nil]
    push_cast
    omega
  next => exact h

/-- The age-policy step keeps the floor invariant. -/
theorem ageStep_inv (cfg : RetentionConfig) (now : Int) (len : Nat)
    (acc : List BackupMetadata) (b : BackupMetadata)
    (h : RetentionInv len acc) : RetentionInv len (ageStep cfg now len acc b) := by
  unfold RetentionInv at *
  unfold ageStep
  split
  next hg =>
    simp only [MinimumRetentionCount] at hg
    simp only [List.length_append, List.length_cons, List.length_nil]
    push_cast
    obtain ⟨-, -, hg3⟩ := hg
    omega
  next => exact h

/-- The count pass respects the floor whenever the tier holds at least
three records. -/
theorem retentionCountPass_inv (len : Nat) (rc : Int) (sorted : List BackupMetadata)
    (h3 : 3 ≤ (len : Int)) : RetentionInv len (retentionCountPass len rc sorted) := by
  unfold retentionCountPass
  split
  · exact foldl_preserve _ _ (countStep_inv len) _ [] (by simpa [RetentionInv] using h3)
  · simpa [RetentionInv] using h3

/-- The age pass keeps the floor invariant. -/
theorem retentionAgePass_inv (cfg : RetentionConfig) (now : Int) (len : Nat)
    (sorted acc : List BackupMetadata) (h : RetentionInv len acc) :
    RetentionInv len (retentionAgePass cfg now len sorted acc) := by
  unfold retentionAgePass
  split
  · exact foldl_preserve _ _ (ageStep_inv cfg now len) sorted acc h
  · exact h

/-- Under the floor invariant the final adjustment is the identity (retention.go
lines 109-125 are a safety net the two passes never trigger). -/
theorem retentionAdjust_id (len : Nat) (td : List BackupMetadata)
    (h : RetentionInv len td) : retentionAdjust len td = td := by
  unfold RetentionInv at h
  unfold retentionAdjust
  rw [if_neg]
  simp only [MinimumRetentionCount]
  omega

/-! ## C1 — retention floor -/

/-- C1 (amended). For every input list and configuration the deletion set
of `applyRetentionPolicy` leaves at least 3 survivors whenever the tier
holds at least 3 records; with at most 3 records the deletion set is
empty; and with a target count above the tier size AND age-based retention
disabled, no deletions occur. (The original claim omitted the age-policy
qualifier; see the counterexample.) -/
theorem C1_retention_floor (cfg : RetentionConfig) (backups : List BackupMetadata)
    (rc now : Int) :
    (3 ≤ backups.length →
      3 ≤ (backups.length : Int) - (applyRetentionPolicy cfg backups rc now).length)
    ∧ (backups.length ≤ 3 → applyRetentionPolicy cfg backups rc now = [])
    ∧ (cfg.maxAgeDays ≤ 0 → (backups.length : Int) < rc →
        applyRetentionPolicy cfg backups rc now = []) := by
  refine ⟨?_, ?_, ?_⟩
  · intro h3
    by_cases hle : backups.length ≤ 3
    · simp only [applyRetentionPolicy, if_pos hle, List.length_nil]
      omega
    · simp only [applyRetentionPolicy, if_neg hle, sortNewestFirst_length]
      have hInv :
          RetentionInv backups.length
            (retentionAgePass cfg now backups.length (sortNewestFirst backups)
              (retentionCountPass backups.length rc (sortNewestFirst backups))) :=
        retentionAgePass_inv _ _ _ _ _
          (retentionCountPass_inv _ _ _ (by omega))
      rw [retentionAdjust_id _ _ hInv]
      unfold RetentionInv at hInv
      exact hInv
  · intro hle
    simp only [applyRetentionPolicy, if_pos hle]
  · intro hage hcnt
    by_cases hle : backups.length ≤ 3
    · simp only [applyRetentionPolicy, if_pos hle]
    · simp only [applyRetentionPolicy, if_neg hle, sortNewestFirst_length]
      have hcp : retentionCountPass backups.length rc (sortNewestFirst backups) = [] := by
        unfold retentionCountPass
        rw [if_neg]
        rintro ⟨-, h2⟩
        omega
      have hap : retentionAgePass cfg now backups.length
          (sortNewestFirst backups) [] = [] := by
        unfold retentionAgePass
        rw [if_neg]
        omega
      rw [hcp, hap]
      unfold retentionAdjust
      rw [if_neg]
      simp only [List.length_nil, MinimumRetentionCount]
      push_cast
      omega

/-- C1 witness: the floor theorem applied at the six-snapshot fixture, the
empty tier, and a target above the tier size with age retention off. -/
theorem C1_retention_floor_witness :
    (3 ≤ (c9Backups.length : Int) -
      (applyRetentionPolicy c9Config c9Backups 4 c9Now).length)
    ∧ applyRetentionPolicy c9Config [] 4 c9Now = []
    ∧ applyRetentionPolicy c9Config c9Backups 100 c9Now = [] :=
  ⟨(C1_retention_floor c9Config c9Backups 4 c9Now).1 (by decide),
   (C1_retention_floor c9Config [] 4 c9Now).2.1 (by decide),
   (C1_retention_floor c9Config c9Backups 100 c9Now).2.2 (by decide) (by decide)⟩

/-- C1 counterexample: with target 10 greater than the tier size 4 but a
1-day age cap and old snapshots, the deletion set is NOT empty — the
original claim's "target greater than the input size means no deletions"
fails once the age policy is active. -/
theorem C1_retention_floor_counterexample :
    (c1Backups.length : Int) < c1Config.localCount ∧
    ApplyLocalRetentionPolicy c1Config c1Backups c1Now ≠ [] := by
  constructor
  · decide
  · decide

/-! ## C9 — retention count policy, concrete scenario -/

/-- C9. Six snapshots at `t-6h … t-1h` with target 4 and age retention
disabled: the deletion set is exactly the `t-5h` and `t-6h` snapshots (in
that order, the code's marking order), and the survivors newest-first are
`t-1h, t-2h, t-3h, t-4h`. -/
theorem C9_retention_count_policy :
    ApplyLocalRetentionPolicy c9Config c9Backups c9Now =
      [fixtureBackup 2 (c9Now - 5 * 3600), fixtureBackup 1 (c9Now - 6 * 3600)]
    ∧ (ApplyLocalRetentionPolicy c9Config c9Backups c9Now).map (·.id) =
        ["backup-2", "backup-1"]
    ∧ (retentionSurvivors c9Config c9Backups 4 c9Now).map (·.id) =
        ["backup-6", "backup-5", "backup-4", "backup-3"] := by
  refine ⟨by decide, by decide, by decide⟩

/-! ## C2 — fingerprint integrity on retrieval -/

/-- C2. Whenever `Retrieve` succeeds on either tier, the SHA-256 recomputed
over the returned bytes equals the checksum in the returned metadata; and
when the stored local payload no longer matches its recorded checksum
(post-write mutation), `Retrieve` fails with an error instead of returning
the bytes. -/
theorem C2_fingerprint_integrity :
    (∀ (st : LocalState) (key : String) (data : Bytes) (m : BackupMetadata),
        LocalStorage.Retrieve st key = .ok (data, m) →
        CalculateChecksumBytes data = m.checksum)
    ∧ (∀ (objs : S3State) (pfx key : String) (now : Int) (data : Bytes)
          (m : BackupMetadata),
        S3Storage.Retrieve objs pfx key now = .ok (data, m) →
        CalculateChecksumBytes data = m.checksum)
    ∧ (∀ (st : LocalState) (key : String) (data : Bytes) (m : BackupMetadata),
        alookup st.payloads key = some data → alookup st.metas key = some m →
        CalculateChecksumBytes data ≠ m.checksum →
        ∃ e, LocalStorage.Retrieve st key = .error e) := by
  refine ⟨?_, ?_, ?_⟩
  · intro st key data m h
    simp only [LocalStorage.Retrieve] at h
    split at h
    · exact Except.noConfusion h
    · split at h
      · exact Except.noConfusion h
      · split at h
        · exact Except.noConfusion h
        · rename_i d md hd hm hne
          simp only [Except.ok.injEq, Prod.mk.injEq] at h
          obtain ⟨rfl, rfl⟩ := h
          exact not_not.mp hne
  · intro objs pfx key now data m h
    simp only [S3Storage.Retrieve] at h
    split at h
    · exact Except.noConfusion h
    · split at h
      · exact Except.noConfusion h
      · split at h
        · exact Except.noConfusion h
        · rename_i obj hobj md hmd hne
          simp only [Except.ok.injEq, Prod.mk.injEq] at h
          obtain ⟨rfl, rfl⟩ := h
          exact not_not.mp hne
  · intro st key data m hp hm hc
    simp only [LocalStorage.Retrieve, hp, hm]
    rw [if_pos hc]
    exact ⟨_, rfl⟩

/-- C2 witness: the healthy fixture retrieves with a matching fingerprint;
the mutated fixture fails. -/
theorem C2_fingerprint_integrity_witness :
    CalculateChecksumBytes c2Data = c2Meta.checksum ∧
    (∃ e, LocalStorage.Retrieve c2BadState "id1" = .error e) :=
  ⟨C2_fingerprint_integrity.1 c2GoodState "id1" c2Data c2Meta (by decide),
   C2_fingerprint_integrity.2.2 c2BadState "id1" (c2Data ++ [0]) c2Meta
     (by decide) (by decide) (by decide)⟩

/-! ## C5 — restore reads the local tier only -/

/-- C5 (amended). `RestoreBackup` fails at its initial validation step
whenever the snapshot is absent from the LOCAL tier, regardless of what
the remote tier holds (the retrieval step likewise only reads the local
tier); a snapshot present only remotely can NOT be restored. -/
theorem C5_restore_local_only (cwd dir : String) (fs : FS) (st : LocalState)
    (objs : S3State) (pfx : String) (remoteEnabled : Bool) (opts : RestoreOptions)
    (now : Nat) (habsent : LocalStorage.Exists st opts.backupID = false) :
    RestoreBackup cwd dir fs st objs pfx remoteEnabled opts now =
      .error ("backup validation failed: " ++ ("backup not found: " ++ opts.backupID)) := by
  simp only [RestoreBackup, RestoreValidateBackup, habsent, if_pos]

/-- C5 witness: the local-absence theorem applied at a concrete state (no
remote tier configured). -/
theorem C5_restore_local_only_witness :
    RestoreBackup "/work" "/snap" [] emptyLocal [] "" false c5Opts 0 =
      .error ("backup validation failed: " ++ ("backup not found: " ++ c5Opts.backupID)) :=
  C5_restore_local_only "/work" "/snap" [] emptyLocal [] "" false c5Opts 0 (by decide)

/-- C5 counterexample: a snapshot present and intact ONLY in the remote
tier (its stored bytes match its recorded checksum, so remote `Retrieve`
succeeds) cannot be restored — `RestoreBackup` fails, contradicting the
claim that validation fails only when the snapshot is bad in EVERY tier. -/
theorem C5_restore_local_only_counterexample :
    (S3Storage.Retrieve c5Remote "" c5ID 0).isOk = true ∧
    (RestoreBackup "/work" "/snap" [] emptyLocal c5Remote "" true c5Opts 0).isOk
      = false := by
  refine ⟨by decide, by decide⟩

/-! ## C6 — the wrapper's pre-hook record -/

/-- The hook loop returns the LAST non-nil record over any error-free run,
for every starting accumulator. -/
theorem runPreHooksAux_ok (hooks : List HookPre) :
    ∀ acc : Option BackupMetadata, (∀ h ∈ hooks, h.isOk = true) →
      runPreHooksAux acc hooks =
        .ok (match lastSome hooks with | some b => some b | none => acc) := by
  induction hooks with
  | nil => intro acc _; simp [runPreHooksAux, lastSome]
  | cons h t ih =>
    intro acc hall
    have hh : h.isOk = true := hall h (List.mem_cons_self h t)
    have ht : ∀ x ∈ t, x.isOk = true := fun x hx => hall x (List.mem_cons_of_mem h hx)
    match h with
    | .error e => simp [Except.isOk, Except.toBool] at hh
    | .ok none =>
      simp only [runPreHooksAux]
      rw [ih acc ht]
      have : lastSome (Except.ok none :: t) = lastSome t := by
        simp only [lastSome]
        cases lastSome t <;> rfl
      rw [this]
    | .ok (some b) =>
      simp only [runPreHooksAux]
      rw [ih (some b) ht]
      have : lastSome (Except.ok (some b) :: t) =
          (match lastSome t with | some c => some c | none => some b) := by
        simp only [lastSome]
      rw [this]
      cases lastSome t <;> rfl

/-- An error hook aborts the loop with that error, whatever came before. -/
theorem runPreHooksAux_error (front : List HookPre) :
    ∀ (acc : Option BackupMetadata) (e : String) (tail : List HookPre),
      (∀ h ∈ front, h.isOk = true) →
      runPreHooksAux acc (front ++ Except.error e :: tail) =
        .error ("pre-execution hook failed: " ++ e) := by
  induction front with
  | nil => intro acc e tail _; simp [runPreHooksAux]
  | cons h t ih =>
    intro acc e tail hall
    have hh : h.isOk = true := hall h (List.mem_cons_self h t)
    have ht : ∀ x ∈ t, x.isOk = true := fun x hx => hall x (List.mem_cons_of_mem h hx)
    match h with
    | .error e₂ => simp [Except.isOk, Except.toBool] at hh
    | .ok none => simpa [runPreHooksAux] using ih acc e tail ht
    | .ok (some b) => simpa [runPreHooksAux] using ih (some b) e tail ht

/-- C6 (amended). The wrapper runs the hooks' pre entry points in order and
remembers the LAST non-null returned record (each non-null return
overwrites the remembered one) as the pre-record; a pre-hook error aborts
execution with that error. (The original claim said FIRST; see the
counterexample.) -/
theorem C6_pre_hook_record :
    (∀ hooks : List HookPre, (∀ h ∈ hooks, h.isOk = true) →
      runPreHooks hooks = .ok (lastSome hooks))
    ∧ (∀ (front tail : List HookPre) (e : String), (∀ h ∈ front, h.isOk = true) →
        runPreHooks (front ++ Except.error e :: tail) =
          .error ("pre-execution hook failed: " ++ e)) := by
  constructor
  · intro hooks hall
    rw [runPreHooks, runPreHooksAux_ok hooks none hall]
    cases lastSome hooks <;> rfl
  · intro front tail e hall
    exact runPreHooksAux_error front none e tail hall

/-- C6 witness: a nil-returning hook followed by a record-returning hook
yields that record; an error hook after a clean hook aborts. -/
theorem C6_pre_hook_record_witness :
    runPreHooks [Except.ok none, Except.ok (some c6r1)] =
      .ok (lastSome [Except.ok none, Except.ok (some c6r1)]) ∧
    runPreHooks [Except.ok none, Except.error "boom"] =
      .error ("pre-execution hook failed: " ++ "boom") :=
  ⟨C6_pre_hook_record.1 [Except.ok none, Except.ok (some c6r1)] (by decide),
   C6_pre_hook_record.2 [Except.ok none] [] "boom" (by decide)⟩

/-- C6 counterexample: with two hooks both returning records, the
remembered pre-record is the SECOND (last) one, not the first as the claim
states. -/
theorem C6_pre_hook_record_counterexample :
    runPreHooks [Except.ok (some c6r1), Except.ok (some c6r2)] = .ok (some c6r2) ∧
    some c6r2 ≠ some c6r1 := by
  refine ⟨by decide, by decide⟩

/-! ## C7 — the version compatibility check -/

/-- C7 (the bug, evaluated). `isVersionCompatible` compares the dotted
components as STRINGS: it ACCEPTS `0.9.0` against minimum `0.12.0`
(numerically lower, `"9" > "12"` lexicographically) and REJECTS `0.100.0`
(numerically higher), contradicting the numeric `≥ 0.12.0` contract. -/
theorem C7_version_check_bug :
    isVersionCompatible "0.9.0" "0.12.0" = true ∧
    isVersionCompatible "0.100.0" "0.12.0" = false ∧
    versionTriple "0.9.0" = some (0, 9, 0) ∧
    versionTriple "0.12.0" = some (0, 12, 0) ∧
    versionTriple "0.100.0" = some (0, 100, 0) := by
  refine ⟨by decide, by decide, by decide, by decide, by decide⟩

/-! ## C8 — the create-and-validate scenario -/

/-- C8 (amended). Snapshotting the 52-byte payload
`{"version":4,"terraform_version":"1.0.0","serial":1}` with defaults
returns a record whose identifier is `terraform.tfstate.` followed by the
RFC3339 UTC instant, whose recorded length is 52 (the payload's true byte
count — the claim's 49 is wrong), whose fingerprint is the 64-character
lowercase-hex SHA-256 of the payload bytes, with tier tag `local` and
`encrypted = false`. -/
theorem C8_create_and_validate :
    c8Run.toOption.isSome = true ∧
    c8Meta.id = "terraform.tfstate." ++ formatRFC3339 c8Now ∧
    c8Meta.id = "terraform.tfstate.2023-06-15T10:30:00Z" ∧
    c8Meta.size = 52 ∧
    c8Meta.checksum = CalculateChecksumBytes scenarioPayload ∧
    c8Meta.checksum =
      "c626d2e928ef21272c4cc0cff61bfd0f0ec89a16fec57f0907f61e15d44847e3" ∧
    c8Meta.checksum.length = 64 ∧
    (c8Meta.checksum.data.all fun c => hexDigits.contains c) = true ∧
    c8Meta.storageType = "local" ∧
    c8Meta.encrypted = false := by
  refine ⟨by decide, by decide, by decide, by decide, by decide, by decide,
    by decide, by decide, by decide, by decide⟩

/-- C8 counterexample: the recorded length of the scenario payload is 52,
not the 49 the claim states. -/
theorem C8_create_and_validate_counterexample :
    scenarioPayload.length = 52 ∧ c8Meta.size = 52 ∧ c8Meta.size ≠ 49 := by
  refine ⟨by decide, by decide, by decide⟩

/-! ## C4 — dual-tier degraded success -/

/-- C4. With the remote tier enabled but its `Store` failing (all retries
exhausted), `CreateBackup` still succeeds: it returns the locally stored
record tagged with the local tier's type, the local catalog gains the new
entry, and the remote store is unchanged (the third component of the
result is the untouched `rs`). -/
theorem C4_remote_failure_degraded (cwd dir : String) (fs : FS) (st : LocalState)
    (rs : S3State) (opts : BackupOptions) (now : Nat)
    (hpath : opts.stateFilePath ≠ "") (hex : FileExists opts.stateFilePath fs = true) :
    ∃ m st2,
      CreateBackup (some failingRemote) true cwd dir fs st rs opts now = .ok (m, st2, rs)
      ∧ m.storageType = "local"
      ∧ m.id = generateBackupID now
      ∧ alookup st2.catalog (generateBackupID now) = some m := by
  simp only [CreateBackup, if_neg hpath, hex, failingRemote]
  rw [if_neg (by simp)]
  refine ⟨_, _, rfl, rfl, ?_, ?_⟩
  · simp only [LocalStorage.Store]
    split <;> rfl
  · exact alookup_ainsert _ _ _

/-- C4 witness: the degraded-success theorem at the scenario fixture (the
52-byte payload, empty local tier, empty remote store). -/
theorem C4_remote_failure_degraded_witness :
    ∃ m st2,
      CreateBackup (some failingRemote) true "/work" "/snap" c8FS emptyLocal []
        c4Opts 1686825000 = .ok (m, st2, ([] : S3State))
      ∧ m.storageType = "local"
      ∧ m.id = generateBackupID 1686825000
      ∧ alookup st2.catalog (generateBackupID 1686825000) = some m :=
  C4_remote_failure_degraded "/work" "/snap" c8FS emptyLocal [] c4Opts 1686825000
    (by decide) (by decide)

/-! ## C10 — state-file detection never reports ambiguity -/

/-- C10. `detectStateFile` silently selects `terraform.tfstate` when it
exists; otherwise it returns the first `.tfstate` entry of the sorted
listing (warning only), and with the default name among several
candidates the default wins — there is no ambiguity failure. A
`CreateBackup` with an empty state-file path then snapshots the detected
file's bytes. -/
theorem C10_detect_no_ambiguity (cwd : String) (fs : FS) :
    (FileExists (cwd ++ "/terraform.tfstate") fs = true →
      detectStateFile cwd fs = .ok (cwd ++ "/terraform.tfstate"))
    ∧ (∀ f rest, FileExists (cwd ++ "/terraform.tfstate") fs = false →
        (dirEntries cwd fs).filter (fun n => strEndsWith n ".tfstate") = f :: rest →
        detectStateFile cwd fs = .ok
          (if rest ≠ [] ∧ (f :: rest).contains "terraform.tfstate" = true then
            cwd ++ "/terraform.tfstate"
          else cwd ++ "/" ++ f))
    ∧ (∀ (dir : String) (st : LocalState) (desc : String) (now : Nat) (p : String),
        detectStateFile cwd fs = .ok p → FileExists p fs = true →
        ∃ m st2, CreateBackup (none : Option (StorageBackend Unit)) false cwd dir fs st ()
            { stateFilePath := "", description := desc, force := false } now
          = .ok (m, st2, ())
          ∧ m.id = generateBackupID now
          ∧ alookup st2.payloads (generateBackupID now) = some ((alookup fs p).getD [])) := by
  refine ⟨?_, ?_, ?_⟩
  · intro h
    simp only [detectStateFile, if_pos h]
  · intro f rest h hfilter
    simp only [detectStateFile]
    rw [if_neg (by simp [h])]
    rw [hfilter]
    by_cases hr : rest = []
    · simp [hr]
    · simp only [hr, if_neg]
      simp [hr]
      split <;> rfl
  · intro dir st desc now p hdet hp
    unfold CreateBackup
    rw [if_pos rfl, hdet]
    dsimp only
    rw [if_neg (by simp [hp])]
    refine ⟨_, _, rfl, ?_, ?_⟩
    · simp only [LocalStorage.Store]
      split <;> rfl
    · exact alookup_ainsert _ _ _

/-- C10 witness: the default name wins when present; with two other
candidates the first sorted entry is chosen; and the empty-path
`CreateBackup` stores the detected file's bytes. -/
theorem C10_detect_no_ambiguity_witness :
    detectStateFile "/w" c10FSDefault = .ok ("/w" ++ "/terraform.tfstate") ∧
    detectStateFile "/w" c10FSTwo = .ok
      (if (["b.tfstate"] ≠ [] ∧
          (["a.tfstate", "b.tfstate"]).contains "terraform.tfstate" = true) then
        "/w" ++ "/terraform.tfstate"
      else "/w" ++ "/" ++ "a.tfstate") ∧
    (∃ m st2, CreateBackup (none : Option (StorageBackend Unit)) false "/w" "/snap" c10FSTwo emptyLocal ()
        { stateFilePath := "", description := "", force := false } 0 = .ok (m, st2, ())
        ∧ m.id = generateBackupID 0
        ∧ alookup st2.payloads (generateBackupID 0) =
            some ((alookup c10FSTwo "/w/a.tfstate").getD [])) :=
  ⟨(C10_detect_no_ambiguity "/w" c10FSDefault).1 (by decide),
   (C10_detect_no_ambiguity "/w" c10FSTwo).2.1 "a.tfstate" ["b.tfstate"]
     (by decide) (by decide),
   (C10_detect_no_ambiguity "/w" c10FSTwo).2.2 "/snap" emptyLocal "" 0 "/w/a.tfstate"
     (by decide) (by decide)⟩

/-! ## C3 — encryption round-trip, tamper detection, no-op copies -/

/-- Setting one position shifts a byte list's sum by the difference of the
new and old byte (stated over ℤ). -/
theorem sum_set_int (l : List Nat) : ∀ (i c : Nat), i < l.length →
    (((l.set i c).sum : Int)) = (l.sum : Int) + c - l.getD i 0 := by
  induction l with
  | nil => intro i c h; simp at h
  | cons x xs ih =>
    intro i c h
    cases i with
    | zero =>
      simp only [List.set_cons_zero, List.sum_cons, List.getD_cons_zero]
      push_cast
      ring
    | succ n =>
      simp only [List.set_cons_succ, List.sum_cons, List.getD_cons_succ]
      have hx := ih n c (by simpa using h)
      push_cast at hx ⊢
      omega

/-- An element read through `getD` inside the bounds is below 256 on a
well-formed byte list. -/
theorem getD_lt_256 (l : Bytes) (i : Nat) (h : i < l.length) (hwf : BytesWF l) :
    l.getD i 0 < 256 := by
  rw [List.getD_eq_getElem l 0 h]
  exact hwf _ (List.getElem_mem h)

/-- Replacing one byte (value `old`) by a different byte value `c` changes
a sum modulo 256. -/
theorem mod256_ne (T T' c old : Nat) (h : (T' : Int) = T + c - old) (hc : c < 256)
    (hold : old < 256) (hne : c ≠ old) : T % 256 ≠ T' % 256 := by
  intro heq
  have hz : ((T : Int) % 256) = ((T' : Int) % 256) := by exact_mod_cast heq
  rw [h] at hz
  have hdvd : (256 : Int) ∣ ((T : Int) - ((T : Int) + c - old)) :=
    Int.dvd_of_emod_eq_zero (Int.emod_eq_emod_iff_emod_sub_eq_zero.mp hz)
  obtain ⟨t, ht⟩ := hdvd
  omega

/-- Sixteen copies of different bytes give different tags. -/
theorem replicate16_ne {a b : Nat} (h : a ≠ b) :
    List.replicate 16 a ≠ List.replicate 16 b := by
  intro heq
  have h1 : (List.replicate 16 a).getD 0 0 = a := by simp
  rw [heq] at h1
  simp at h1
  exact h h1.symm

/-- Overwriting one tag byte with a different value changes the tag. -/
theorem replicate_set_ne {v c j : Nat} (hj : j < 16) (hne : c ≠ v) :
    (List.replicate 16 v).set j c ≠ List.replicate 16 v := by
  intro heq
  have h1 : ((List.replicate 16 v).set j c).getD j 0 = c := by
    rw [List.getD_eq_getElem _ 0 (by simp [hj])]
    exact List.getElem_set_self _
  rw [heq] at h1
  have h2 : (List.replicate 16 v).getD j 0 = v := by
    rw [List.getD_eq_getElem _ 0 (by simp [hj])]
    exact List.getElem_replicate _ _
  exact hne (h1.symm.trans h2)

/-- `Decrypt` on a 12-byte nonce followed by a ciphertext is `gcm.Open` of
the split. -/
theorem decrypt_append (key n2 rest : Bytes) (h12 : n2.length = 12) :
    AESProvider.Decrypt key (n2 ++ rest) =
      (match gcmOpen key n2 rest with
      | some pt => .ok pt
      | none => .error "failed to decrypt data") := by
  unfold AESProvider.Decrypt
  rw [if_neg (by simp [h12])]
  rw [List.take_left' h12, List.drop_left' h12]

/-- `gcm.Open` on a message followed by a 16-byte tag verifies exactly that
tag. -/
theorem gcmOpen_append_tag (key n2 pt tag : Bytes) (htag : tag.length = 16) :
    gcmOpen key n2 (pt ++ tag) = if tag = gcmTag key n2 pt then some pt else none := by
  unfold gcmOpen
  have hlen : (pt ++ tag).length - 16 = pt.length := by simp [htag]
  rw [if_neg (by simp [htag]), hlen, List.take_left, List.drop_left]

/-- Round-trip: `Decrypt` inverts `Encrypt` for any key, 12-byte nonce and
payload. -/
theorem aes_roundtrip (key nonce data : Bytes) (hn : nonce.length = 12) :
    AESProvider.Decrypt key (AESProvider.Encrypt key nonce data) = .ok data := by
  unfold AESProvider.Encrypt
  rw [decrypt_append key nonce _ hn]
  simp only [gcmSeal]
  rw [gcmOpen_append_tag _ _ _ _ (by simp [gcmTag])]
  rw [if_pos rfl]

/-- Tampering with any single byte of the encrypted output — nonce,
ciphertext body or tag — makes `Decrypt` fail. -/
theorem aes_tamper (key nonce data : Bytes) (hn : nonce.length = 12)
    (hwfN : BytesWF nonce) (hwfD : BytesWF data) (i c : Nat)
    (hi : i < (AESProvider.Encrypt key nonce data).length) (hc : c < 256)
    (hne : c ≠ (AESProvider.Encrypt key nonce data).getD i 0) :
    AESProvider.Decrypt key ((AESProvider.Encrypt key nonce data).set i c) =
      .error "failed to decrypt data" := by
  simp only [AESProvider.Encrypt] at hi hne ⊢
  have hlen : (gcmSeal key nonce data).length = data.length + 16 := by
    simp [gcmSeal, gcmTag]
  rw [List.length_append, hn, hlen] at hi
  by_cases hA : i < 12
  · rw [List.set_append_left i c (by omega)]
    rw [decrypt_append key _ _ (by simp [hn])]
    have htagne : gcmTag key nonce data ≠ gcmTag key (nonce.set i c) data := by
      unfold gcmTag
      apply replicate16_ne
      unfold gcmTagByte
      refine mod256_ne _ _ c (nonce.getD i 0) ?_ hc
        (getD_lt_256 nonce i (by omega) hwfN) ?_
      · have hs := sum_set_int nonce i c (by omega)
        simp only [Nat.cast_add]
        omega
      · intro hceq
        exact hne (hceq.trans (List.getD_append nonce _ 0 i (by omega)).symm)
    simp only [gcmSeal]
    rw [gcmOpen_append_tag _ _ _ _ (by simp [gcmTag])]
    rw [if_neg htagne]
  · by_cases hB : i < 12 + data.length
    · rw [List.set_append_right i c (by omega)]
      simp only [gcmSeal]
      rw [List.set_append_left _ _ (by omega : i - nonce.length < data.length)]
      rw [decrypt_append key nonce _ hn]
      have h1 : (nonce ++ (data ++ gcmTag key nonce data)).getD i 0 =
          (data ++ gcmTag key nonce data).getD (i - nonce.length) 0 :=
        List.getD_append_right nonce _ 0 i (by omega)
      have h2 : (data ++ gcmTag key nonce data).getD (i - nonce.length) 0 =
          data.getD (i - nonce.length) 0 :=
        List.getD_append data _ 0 _ (by omega)
      have hne2 : c ≠ data.getD (i - nonce.length) 0 := by
        intro hceq
        apply hne
        simp only [gcmSeal]
        exact hceq.trans (h1.trans h2).symm
      have htagne : gcmTag key nonce data ≠
          gcmTag key nonce (data.set (i - nonce.length) c) := by
        unfold gcmTag
        apply replicate16_ne
        unfold gcmTagByte
        refine mod256_ne _ _ c (data.getD (i - nonce.length) 0) ?_ hc
          (getD_lt_256 data _ (by omega) hwfD) hne2
        have hs := sum_set_int data (i - nonce.length) c (by omega)
        simp only [Nat.cast_add]
        omega
      rw [gcmOpen_append_tag _ _ _ _ (by simp [gcmTag])]
      rw [if_neg htagne]
    · rw [List.set_append_right i c (by omega)]
      simp only [gcmSeal]
      rw [List.set_append_right _ _ (by omega : data.length ≤ i - nonce.length)]
      rw [decrypt_append key nonce _ hn]
      have hj : i - nonce.length - data.length < 16 := by omega
      have h1 : (nonce ++ (data ++ gcmTag key nonce data)).getD i 0 =
          (data ++ gcmTag key nonce data).getD (i - nonce.length) 0 :=
        List.getD_append_right nonce _ 0 i (by omega)
      have h2 : (data ++ gcmTag key nonce data).getD (i - nonce.length) 0 =
          (gcmTag key nonce data).getD (i - nonce.length - data.length) 0 :=
        List.getD_append_right data _ 0 _ (by omega)
      have h3 : (gcmTag key nonce data).getD (i - nonce.length - data.length) 0 =
          gcmTagByte key nonce data := by
        rw [List.getD_eq_getElem _ 0 (by simp [gcmTag]; omega)]
        exact List.getElem_replicate _ _
      have hne3 : c ≠ gcmTagByte key nonce data := by
        intro hceq
        apply hne
        simp only [gcmSeal]
        exact hceq.trans ((h1.trans h2).trans h3).symm
      have htagne : (gcmTag key nonce data).set (i - nonce.length - data.length) c ≠
          gcmTag key nonce data := by
        unfold gcmTag
        exact replicate_set_ne hj hne3
      rw [gcmOpen_append_tag _ _ _ _ (by simp [gcmTag])]
      rw [if_neg htagne]

/-- C3. The provider contract: `Decrypt ∘ Encrypt` is the identity for the
AES model (any 12-byte nonce) and for the no-op provider; tampering with
any single byte of the AES output fails decryption; inputs shorter than
the nonce size fail; and the no-op provider allocates a fresh buffer, so
mutating the returned bytes leaves the input buffer unchanged. -/
theorem C3_encryption_contract :
    (∀ key nonce data : Bytes, nonce.length = 12 →
        AESProvider.Decrypt key (AESProvider.Encrypt key nonce data) = .ok data)
    ∧ (∀ key nonce data : Bytes, nonce.length = 12 → BytesWF nonce → BytesWF data →
        ∀ i c : Nat, i < (AESProvider.Encrypt key nonce data).length → c < 256 →
          c ≠ (AESProvider.Encrypt key nonce data).getD i 0 →
          AESProvider.Decrypt key ((AESProvider.Encrypt key nonce data).set i c) =
            .error "failed to decrypt data")
    ∧ (∀ key enc : Bytes, enc.length < 12 →
        AESProvider.Decrypt key enc = .error "encrypted data too short")
    ∧ (∀ data : Bytes, NoOpProvider.Decrypt (NoOpProvider.Encrypt data) = data)
    ∧ (∀ (h : Heap) (src : Nat), src < h.length →
        (NoOpEncryptH h src).2 ≠ src
        ∧ (NoOpEncryptH h src).1.getD (NoOpEncryptH h src).2 [] = h.getD src []
        ∧ ∀ i v : Nat,
            (heapSet (NoOpEncryptH h src).1 (NoOpEncryptH h src).2 i v).getD src [] =
              h.getD src []) := by
  refine ⟨aes_roundtrip, aes_tamper, ?_, ?_, ?_⟩
  · intro key enc h
    unfold AESProvider.Decrypt
    rw [if_pos h]
  · intro data
    rfl
  · intro h src hsrc
    refine ⟨by simp [NoOpEncryptH, heapAlloc]; omega, ?_, ?_⟩
    · simp only [NoOpEncryptH, heapAlloc]
      rw [List.getD_append_right h _ [] h.length (le_refl _)]
      simp
    · intro i v
      simp only [NoOpEncryptH, heapAlloc, heapSet]
      rw [List.set_append_right _ _ (le_refl _)]
      exact List.getD_append h _ [] src hsrc

/-- C3 witness: a concrete key, nonce and payload round-trip; byte 0 of the
encrypted output tampered to 255 fails; a 3-byte input is too short; and a
one-buffer heap keeps its original buffer after mutating the no-op copy. -/
theorem C3_encryption_contract_witness :
    AESProvider.Decrypt c3Key (AESProvider.Encrypt c3Key c3Nonce c3Data) = .ok c3Data ∧
    AESProvider.Decrypt c3Key ((AESProvider.Encrypt c3Key c3Nonce c3Data).set 0 255) =
      .error "failed to decrypt data" ∧
    AESProvider.Decrypt c3Key [1, 2, 3] = .error "encrypted data too short" ∧
    (NoOpEncryptH [[1, 2, 3]] 0).2 ≠ 0 ∧
    (NoOpEncryptH [[1, 2, 3]] 0).1.getD (NoOpEncryptH [[1, 2, 3]] 0).2 [] =
      ([[1, 2, 3]] : Heap).getD 0 [] ∧
    (heapSet (NoOpEncryptH [[1, 2, 3]] 0).1 (NoOpEncryptH [[1, 2, 3]] 0).2 1 9).getD 0 []
      = ([[1, 2, 3]] : Heap).getD 0 [] :=
  ⟨C3_encryption_contract.1 c3Key c3Nonce c3Data (by decide),
   C3_encryption_contract.2.1 c3Key c3Nonce c3Data (by decide) (by decide) (by decide)
     0 255 (by decide) (by decide) (by decide),
   C3_encryption_contract.2.2.1 c3Key [1, 2, 3] (by decide),
   (C3_encryption_contract.2.2.2.2 [[1, 2, 3]] 0 (by decide)).1,
   (C3_encryption_contract.2.2.2.2 [[1, 2, 3]] 0 (by decide)).2.1,
   (C3_encryption_contract.2.2.2.2 [[1, 2, 3]] 0 (by decide)).2.2 1 9⟩
